import Mathlib

/-!
Verification of the Live Audio Session Engine
(`src/features/LiveConversation.tsx` together with the stale-credential
detection in `src/utils/errorHandler.ts`).

The development shallowly embeds the component's mutable state
(the React refs and state hooks of `LiveConversation`) as the structure
`ControllerState`, and each event handler of the source as a pure state
transformer.  External side effects (closing the transport, stopping a
media track, handing the transcript to the history collaborator, ...)
are recorded in a trace of `Action` values, and every external call may
be made to raise via a fault oracle `faults : Action → Bool`, modelling
a JavaScript exception thrown by that call; an exception aborts the rest
of the handler, exactly as in the unguarded source.
-/

namespace LiveConversation

/-- Speaker tag of a transcription entry (`'user' | 'model'`,
`LiveConversation.tsx` line 10). -/
inductive Source where
  | user
  | model
deriving DecidableEq

/-- `TranscriptionEntry` (`LiveConversation.tsx` lines 9-12). -/
structure TranscriptionEntry where
  source : Source
  text : String
deriving DecidableEq

/-- State of an `AudioContext`: the source only distinguishes
`state !== 'closed'` from `'closed'` (lines 54, 57). -/
inductive CtxState where
  | running
  | closed
deriving DecidableEq

/-- The mutable state of the `LiveConversation` component: one field per
React ref / state hook (`LiveConversation.tsx` lines 16-29).

* `session` — whether `sessionRef.current` is non-null;
* `scriptProcessor` — whether `scriptProcessorRef.current` is non-null;
* `mediaStream` — `mediaStreamRef.current`: `some n` is a stream whose
  `getTracks()` has `n` tracks, `none` is a null ref;
* `inputCtx`, `outputCtx` — the two `AudioContext` refs;
* `audioSources` — ids of the members of `audioSourcesRef.current`;
* `nextStartTime` — `nextStartTimeRef.current`, the playback cursor;
* `isSessionActive`, `transcript` (= `transcriptionHistory`),
  `errorMsg` (= `error`) — the three `useState` values;
* `inputAcc`, `outputAcc` — `currentInputTranscriptionRef` and
  `currentOutputTranscriptionRef`. -/
structure ControllerState where
  session : Bool
  scriptProcessor : Bool
  mediaStream : Option Nat
  inputCtx : Option CtxState
  outputCtx : Option CtxState
  audioSources : List Nat
  nextStartTime : ℚ
  isSessionActive : Bool
  transcript : List TranscriptionEntry
  errorMsg : Option String
  inputAcc : String
  outputAcc : String
deriving DecidableEq

/-- The state of the component before any session was ever started:
all refs null, no error, empty transcript. -/
def idleState : ControllerState where
  session := false
  scriptProcessor := false
  mediaStream := none
  inputCtx := none
  outputCtx := none
  audioSources := []
  nextStartTime := 0
  isSessionActive := false
  transcript := []
  errorMsg := none
  inputAcc := ""
  outputAcc := ""

/-! ## TranscriptAssembler (`onmessage`, lines 102-122) -/

/-- `onmessage` transcription-fragment handling (lines 103-108): a
fragment for `inputTranscription` (the user) or `outputTranscription`
(the model) is appended to the matching accumulator ref. -/
def applyFragment (s : ControllerState) (f : Source × String) : ControllerState :=
  match f.1 with
  | .user => { s with inputAcc := s.inputAcc ++ f.2 }
  | .model => { s with outputAcc := s.outputAcc ++ f.2 }

/-- Whether a character is trimmed by JavaScript
`String.prototype.trim`. -/
def isWsChar (c : Char) : Bool :=
  c == ' ' || c == '\t' || c == '\n' || c == '\r'

/-- JavaScript `String.prototype.trim`: drop leading and trailing
whitespace. -/
def jsTrim (s : String) : String :=
  ⟨((s.data.dropWhile isWsChar).reverse.dropWhile isWsChar).reverse⟩

/-- `onmessage` handling of `serverContent.turnComplete` (lines 110-122):
trim both accumulators, append a user entry if the trimmed input is a
non-empty (truthy) string, then a model entry likewise, and clear both
accumulators. -/
def onTurnComplete (s : ControllerState) : ControllerState :=
  let fullInput := jsTrim s.inputAcc
  let fullOutput := jsTrim s.outputAcc
  { s with
    transcript := s.transcript
      ++ (if fullInput ≠ "" then [⟨.user, fullInput⟩] else [])
      ++ (if fullOutput ≠ "" then [⟨.model, fullOutput⟩] else [])
    inputAcc := ""
    outputAcc := "" }

/-- Concatenation, in arrival order, of the user (`inputTranscription`)
fragments of a fragment sequence. -/
def userText : List (Source × String) → String
  | [] => ""
  | (.user, t) :: r => t ++ userText r
  | (.model, _) :: r => userText r

/-- Concatenation, in arrival order, of the model (`outputTranscription`)
fragments of a fragment sequence. -/
def modelText : List (Source × String) → String
  | [] => ""
  | (.user, _) :: r => modelText r
  | (.model, t) :: r => t ++ modelText r

/-! ## AudioCodec: the outbound PCM16 conversion
(`scriptProcessor.onaudioprocess`, lines 91-98)

The source converts each captured float sample `x` with
`new Int16Array(inputData.map(x => x * 32768))`.  JavaScript's
`Int16Array` element conversion (`ToInt16`) truncates the number toward
zero and reduces it modulo 2^16 into `[-32768, 32767]`; the backing
buffer is then read as little-endian bytes.  Samples are modelled as
rationals. -/

/-- Truncation toward zero of a rational, as JavaScript `ToIntegerOrInfinity`
does before the modular reduction. -/
def ratTrunc (x : ℚ) : ℤ :=
  if 0 ≤ x then ⌊x⌋ else ⌈x⌉

/-- JavaScript `ToInt16`: reduce an integer modulo 2^16 into the signed
16-bit range. -/
def toInt16 (n : ℤ) : ℤ :=
  if 32768 ≤ n % 65536 then n % 65536 - 65536 else n % 65536

/-- The per-sample conversion performed by line 94:
`x * 32768` followed by `Int16Array` element conversion.  No clamping is
performed and both signs are scaled by 32768. -/
def encodeSample (x : ℚ) : ℤ :=
  toInt16 (ratTrunc (x * 32768))

/-- The byte stream of the `Int16Array` backing buffer sent on line 94:
two little-endian bytes per sample. -/
def pcm16Bytes (samples : List ℚ) : List ℕ :=
  samples.flatMap fun x =>
    let u := ((encodeSample x) % 65536).toNat
    [u % 256, u / 256]

/-- The conversion the specification describes for `encodePCM16`:
clamp to [-1, 1], then scale the negative side by 32768 and the
non-negative side by 32767 (so out-of-range input saturates). -/
def specEncodeSample (x : ℚ) : ℤ :=
  let c := max (-1 : ℚ) (min 1 x)
  if c < 0 then ratTrunc (c * 32768) else ratTrunc (c * 32767)

/-! ## PlaybackScheduler (`onmessage` audio branch, lines 124-137) -/

/-- Scheduling one decoded audio chunk (lines 126-136): the cursor is
bumped to `max(cursor, outputCtx.currentTime)`, the source starts at the
bumped cursor and is added to the source set, and the cursor then
advances by the chunk's duration.  Returns the new state and the
scheduled start time.  `now` is the output clock at the moment the
handler runs, `dur` the decoded buffer's duration. -/
def scheduleAudioChunk (s : ControllerState) (srcId : Nat) (now dur : ℚ) :
    ControllerState × ℚ :=
  let start := max s.nextStartTime now
  ({ s with
      nextStartTime := start + dur
      audioSources := s.audioSources ++ [srcId] },
   start)

/-- The start times produced by a sequence of inbound audio chunks, each
given as (output-clock time at scheduling, duration). -/
def runSchedule (s : ControllerState) : List (ℚ × ℚ) → List ℚ
  | [] => []
  | (now, dur) :: rest =>
      let r := scheduleAudioChunk s 0 now dur
      r.2 :: runSchedule r.1 rest

/-! ## SessionController teardown (`stopSession`, lines 31-66)

`stopSession(saveHistory)` is the single teardown path, used by the
Stop button (`handleStop`, `saveHistory = true`), the transport's
`onclose` (`saveHistory = true`), the transport's `onerror`
(`saveHistory = false`), the `catch` of `handleStart`
(`saveHistory = false`) and the unmount effect.  Each externally
observable call it makes is recorded as an `Action`; the fault oracle
decides whether that call throws, in which case — the source has no
`try`/`catch` — the exception aborts the remainder of the function. -/

/-- The externally observable calls made by `stopSession`. -/
inductive Action where
  /-- `addHistoryItem({... outputs: {transcript}})` (lines 33-39). -/
  | saveTranscript (t : List TranscriptionEntry)
  /-- `sessionRef.current.close()` (line 43). -/
  | closeSession
  /-- `scriptProcessorRef.current.disconnect()` (line 47). -/
  | disconnectProcessor
  /-- `track.stop()` for track number `i` (line 51). -/
  | stopTrack (i : Nat)
  /-- `inputAudioContextRef.current.close()` (line 55). -/
  | closeInputCtx
  /-- `outputAudioContextRef.current.close()` (line 58). -/
  | closeOutputCtx
  /-- `source.stop()` for the scheduled source with id `id` (line 61). -/
  | stopSource (id : Nat)
deriving DecidableEq

/-- Whether an action is the hand-off of the transcript to the history
collaborator. -/
def Action.isSave : Action → Bool
  | .saveTranscript _ => true
  | _ => false

/-- Result of running a handler: the final state, the trace of external
calls attempted (in order), and whether the handler ran to completion
(`ok = false` means an exception escaped). -/
structure RunResult where
  state : ControllerState
  trace : List Action
  ok : Bool
deriving DecidableEq

/-- Sequencing of handler fragments: the continuation runs only when the
fragment before it completed without an exception. -/
def seqRun (r : RunResult) (f : ControllerState → RunResult) : RunResult :=
  if r.ok then
    let r2 := f r.state
    ⟨r2.state, r.trace ++ r2.trace, r2.ok⟩
  else r

/-- Lines 42-45: `if (sessionRef.current) { close(); ref = null; }`.
If `close()` throws, the ref is not cleared. -/
def blkSession (faults : Action → Bool) (s : ControllerState) : RunResult :=
  if s.session then
    if faults .closeSession then ⟨s, [.closeSession], false⟩
    else ⟨{ s with session := false }, [.closeSession], true⟩
  else ⟨s, [], true⟩

/-- Lines 46-49: disconnect and null the script processor. -/
def blkProcessor (faults : Action → Bool) (s : ControllerState) : RunResult :=
  if s.scriptProcessor then
    if faults .disconnectProcessor then ⟨s, [.disconnectProcessor], false⟩
    else ⟨{ s with scriptProcessor := false }, [.disconnectProcessor], true⟩
  else ⟨s, [], true⟩

/-- `getTracks().forEach(track => track.stop())`: stop the tracks in
order, aborting at the first one whose `stop()` throws.  Returns the
trace and whether the loop completed. -/
def stopTracks (faults : Action → Bool) : List Nat → List Action × Bool
  | [] => ([], true)
  | i :: rest =>
      if faults (.stopTrack i) then ([.stopTrack i], false)
      else
        let r := stopTracks faults rest
        (.stopTrack i :: r.1, r.2)

/-- Lines 50-53: stop every track of the media stream, then null the
ref (the ref stays set if a `track.stop()` throws). -/
def blkStream (faults : Action → Bool) (s : ControllerState) : RunResult :=
  match s.mediaStream with
  | none => ⟨s, [], true⟩
  | some n =>
      let r := stopTracks faults (List.range n)
      if r.2 then ⟨{ s with mediaStream := none }, r.1, true⟩
      else ⟨s, r.1, false⟩

/-- Lines 54-56: close the input `AudioContext` when it exists and its
state is not already `'closed'`; the ref is never nulled, but `close()`
moves the state to `'closed'`. -/
def blkInputCtx (faults : Action → Bool) (s : ControllerState) : RunResult :=
  match s.inputCtx with
  | some .running =>
      if faults .closeInputCtx then ⟨s, [.closeInputCtx], false⟩
      else ⟨{ s with inputCtx := some .closed }, [.closeInputCtx], true⟩
  | _ => ⟨s, [], true⟩

/-- Lines 57-59: same for the output `AudioContext`. -/
def blkOutputCtx (faults : Action → Bool) (s : ControllerState) : RunResult :=
  match s.outputCtx with
  | some .running =>
      if faults .closeOutputCtx then ⟨s, [.closeOutputCtx], false⟩
      else ⟨{ s with outputCtx := some .closed }, [.closeOutputCtx], true⟩
  | _ => ⟨s, [], true⟩

/-- `audioSourcesRef.current.forEach(source => source.stop())`:
stop each scheduled source in order, aborting at the first throw. -/
def stopSources (faults : Action → Bool) : List Nat → List Action × Bool
  | [] => ([], true)
  | id :: rest =>
      if faults (.stopSource id) then ([.stopSource id], false)
      else
        let r := stopSources faults rest
        (.stopSource id :: r.1, r.2)

/-- Lines 61-62: stop all scheduled sources, then clear the set (the set
is not cleared if one `stop()` throws). -/
def blkSources (faults : Action → Bool) (s : ControllerState) : RunResult :=
  let r := stopSources faults s.audioSources
  if r.2 then ⟨{ s with audioSources := [] }, r.1, true⟩
  else ⟨s, r.1, false⟩

/-- Lines 63-65: reset the cursor and clear the active flag — purely
local mutations, no external call. -/
def blkFinal (s : ControllerState) : RunResult :=
  ⟨{ s with nextStartTime := 0, isSessionActive := false }, [], true⟩

/-- The teardown part of `stopSession` (lines 42-65), in source order:
close the transport session, disconnect the script processor, stop the
media-stream tracks, close the input and output audio contexts, stop
the scheduled playback sources, then reset cursor and active flag. -/
def stopTeardown (faults : Action → Bool) (s : ControllerState) : RunResult :=
  seqRun (seqRun (seqRun (seqRun (seqRun (seqRun
    (blkSession faults s)
    (blkProcessor faults))
    (blkStream faults))
    (blkInputCtx faults))
    (blkOutputCtx faults))
    (blkSources faults))
    blkFinal

/-- `stopSession(saveHistory)` (lines 31-66): when `saveHistory` is set
and the transcript is non-empty (`transcriptionHistory.length > 0`),
first hand the transcript to the history collaborator, then run the
teardown. -/
def stopSession (faults : Action → Bool) (saveHistory : Bool)
    (s : ControllerState) : RunResult :=
  let save : List Action :=
    if saveHistory ∧ 0 < s.transcript.length
    then [.saveTranscript s.transcript] else []
  let r := stopTeardown faults s
  ⟨r.state, save ++ r.trace, r.ok⟩

/-- The ways a session can end, and what the source does on each
(lines 139-146, 166-168): the Stop button runs `stopSession(true)`;
the transport's `onclose` runs `stopSession(true)`; the transport's
`onerror` sets the error text to `` `Session error: ${e.message}` ``
and runs `stopSession(false)`. -/
inductive EndReason where
  | userStop
  | remoteClose
  | transportError (msg : String)
deriving DecidableEq

/-- Dispatch of a session end to the matching source path. -/
def endSession (faults : Action → Bool) (r : EndReason)
    (s : ControllerState) : RunResult :=
  match r with
  | .userStop => stopSession faults true s
  | .remoteClose => stopSession faults true s
  | .transportError msg =>
      stopSession faults false
        { s with errorMsg := some ("Session error: " ++ msg) }

/-- The all-succeed fault oracle: no external call throws. -/
def noFaults : Action → Bool := fun _ => false

/-! ## SessionController start path (`handleStart`, lines 68-82) -/

/-- The externally observable steps of `handleStart` up to the transport
connection, in source order. -/
inductive StartAction where
  /-- `setError(null)` (line 70). -/
  | clearError
  /-- `setTranscriptionHistory([])` (line 71). -/
  | clearTranscript
  /-- `navigator.mediaDevices.getUserMedia({audio: true})` (line 74). -/
  | acquireMic
  /-- construction of the input `AudioContext` (line 77). -/
  | createInputCtx
  /-- construction of the output `AudioContext` (line 78). -/
  | createOutputCtx
  /-- `ai.live.connect(...)` (line 82). -/
  | connectTransport
deriving DecidableEq

/-- The steps `handleStart` performs: nothing when the guard
`if (isSessionActive) return` (line 69) fires, otherwise the whole
sequence, beginning with the error/transcript reset. -/
def handleStartTrace (s : ControllerState) : List StartAction :=
  if s.isSessionActive then []
  else [.clearError, .clearTranscript, .acquireMic,
        .createInputCtx, .createOutputCtx, .connectTransport]

/-- The synchronous state mutations of `handleStart` before the first
`await` (lines 69-71): past the guard, the error is cleared and the
transcript reset. -/
def handleStartReset (s : ControllerState) : ControllerState :=
  if s.isSessionActive then s
  else { s with errorMsg := none, transcript := [] }

/-- A state in which a previous `start()` has begun (the microphone
stream is already acquired) but the transport has not yet reported open,
so `isSessionActive` is still `false`: the "Starting" phase. -/
def startingState : ControllerState :=
  { idleState with mediaStream := some 1 }

/-! ## Error surfacing (`onerror`, lines 139-143) and the stale-key
detection of `src/utils/errorHandler.ts` (`useVeoApiKey.handleApiError`,
lines 55-59) -/

/-- The distinct states a feature can surface to the UI on an error:
plain error text, or the "must reselect credential" screen that
`useVeoApiKey` consumers render when `isKeySelected` becomes false. -/
inductive UiSurface where
  | errorText (msg : String)
  | reselectCredential
deriving DecidableEq

/-- Whether a surfaced state is the "must reselect credential" one. -/
def UiSurface.isReselect : UiSurface → Bool
  | .reselectCredential => true
  | _ => false

/-- What the live-conversation `onerror` callback surfaces to the UI for
a transport error (line 141): always the generic error text
`` `Session error: ${e.message}` ``, for every message. -/
def liveErrorSurface (msg : String) : UiSurface :=
  .errorText ("Session error: " ++ msg)

/-- Whether the character list `p` occurs as a contiguous run inside
`l` — JavaScript `String.prototype.includes`. -/
def charsContain (p : List Char) : List Char → Bool
  | [] => decide (p = [])
  | c :: rest => decide (p = (c :: rest).take p.length) || charsContain p rest

/-- The stale-credential message pattern checked by
`errorHandler.ts` line 56. -/
def staleKeyMessage : String := "Requested entity was not found"

/-- `useVeoApiKey.handleApiError` (`errorHandler.ts` lines 55-59):
if the error message includes the stale-credential pattern, the selected
key is dropped (`setIsKeySelected(false)`), which makes its consumers
render the reselect-credential screen; otherwise the key state is
unchanged. -/
def handleApiErrorKey (msg : Option String) (isKeySelected : Bool) : Bool :=
  match msg with
  | some m =>
      if charsContain staleKeyMessage.toList m.toList then false
      else isKeySelected
  | none => isKeySelected

/-- The fault oracle under which exactly the transport `close()` call
(the first teardown step) throws. -/
def faultClose : Action → Bool := fun a => a = Action.closeSession

/-- A fully populated session state: transport open, capture wired, one
media track, both audio contexts running, one scheduled source (id 5),
active, with a one-entry transcript. -/
def fullState : ControllerState :=
  { idleState with
    session := true
    scriptProcessor := true
    mediaStream := some 1
    inputCtx := some .running
    outputCtx := some .running
    audioSources := [5]
    isSessionActive := true
    transcript := [⟨.user, "hi"⟩] }

/-! ## Theorems: PlaybackScheduler (C1) -/

theorem runSchedule_length (s : ControllerState) (es : List (ℚ × ℚ)) :
    (runSchedule s es).length = es.length := by
  induction es generalizing s with
  | nil => rfl
  | cons e rest ih =>
      obtain ⟨now, dur⟩ := e
      simp [runSchedule, ih]

theorem runSchedule_clock_le (s : ControllerState) (es : List (ℚ × ℚ))
    (i : ℕ) (h : i < es.length) :
    (es.getD i (0, 0)).1 ≤ (runSchedule s es).getD i 0 := by
  induction es generalizing s i with
  | nil => simp at h
  | cons e rest ih =>
      obtain ⟨now, dur⟩ := e
      cases i with
      | zero =>
          simp [runSchedule, scheduleAudioChunk]
      | succ j =>
          simpa [runSchedule, scheduleAudioChunk] using
            ih _ j (by simpa using h)

theorem runSchedule_no_overlap (s : ControllerState) (es : List (ℚ × ℚ))
    (i : ℕ) (h : i + 1 < es.length) :
    (runSchedule s es).getD i 0 + (es.getD i (0, 0)).2 ≤
      (runSchedule s es).getD (i + 1) 0 := by
  induction es generalizing s i with
  | nil => simp at h
  | cons e rest ih =>
      obtain ⟨now, dur⟩ := e
      cases i with
      | zero =>
          cases rest with
          | nil => simp at h
          | cons e2 rest2 =>
              obtain ⟨now2, dur2⟩ := e2
              simp [runSchedule, scheduleAudioChunk]
      | succ j =>
          simpa [runSchedule, scheduleAudioChunk] using
            ih _ j (by simpa using h)

/-- Claim C1: every inbound audio chunk is scheduled at
`max(cursor, output clock now)` and the cursor then advances by the
chunk's duration; consequently, for any chunk sequence with nonnegative
durations and arbitrary clock readings, the start times are
non-decreasing, each start time is at least the previous start time plus
the previous chunk's duration (no overlap), and no start time is earlier
than the output clock at the moment of scheduling. -/
theorem playback_starts_sequential (s : ControllerState)
    (es : List (ℚ × ℚ)) (hd : ∀ e ∈ es, 0 ≤ e.2) :
    (runSchedule s es).length = es.length ∧
    (∀ i, i < es.length →
      (es.getD i (0, 0)).1 ≤ (runSchedule s es).getD i 0) ∧
    (∀ i, i + 1 < es.length →
      (runSchedule s es).getD i 0 + (es.getD i (0, 0)).2 ≤
        (runSchedule s es).getD (i + 1) 0) ∧
    (∀ i, i + 1 < es.length →
      (runSchedule s es).getD i 0 ≤ (runSchedule s es).getD (i + 1) 0) := by
  refine ⟨runSchedule_length s es, fun i hi => runSchedule_clock_le s es i hi,
    fun i hi => runSchedule_no_overlap s es i hi, fun i hi => ?_⟩
  have h1 := runSchedule_no_overlap s es i hi
  have hi' : i < es.length := by omega
  have hmem : es.getD i (0, 0) ∈ es := by
    rw [List.getD_eq_getElem _ _ hi']
    exact List.getElem_mem hi'
  have h2 := hd _ hmem
  linarith

/-- Witness for C1 on the concrete chunk sequence
`[(now = 0, dur = 1), (now = 1/2, dur = 2)]` from the idle state. -/
theorem playback_starts_sequential_witness :
    (runSchedule idleState [((0 : ℚ), (1 : ℚ)), (1/2, 2)]).length =
      [((0 : ℚ), (1 : ℚ)), (1/2, 2)].length ∧
    (∀ i, i < [((0 : ℚ), (1 : ℚ)), (1/2, 2)].length →
      ([((0 : ℚ), (1 : ℚ)), (1/2, 2)].getD i (0, 0)).1 ≤
        (runSchedule idleState [((0 : ℚ), (1 : ℚ)), (1/2, 2)]).getD i 0) ∧
    (∀ i, i + 1 < [((0 : ℚ), (1 : ℚ)), (1/2, 2)].length →
      (runSchedule idleState [((0 : ℚ), (1 : ℚ)), (1/2, 2)]).getD i 0 +
          ([((0 : ℚ), (1 : ℚ)), (1/2, 2)].getD i (0, 0)).2 ≤
        (runSchedule idleState [((0 : ℚ), (1 : ℚ)), (1/2, 2)]).getD (i + 1) 0) ∧
    (∀ i, i + 1 < [((0 : ℚ), (1 : ℚ)), (1/2, 2)].length →
      (runSchedule idleState [((0 : ℚ), (1 : ℚ)), (1/2, 2)]).getD i 0 ≤
        (runSchedule idleState [((0 : ℚ), (1 : ℚ)), (1/2, 2)]).getD (i + 1) 0) :=
  playback_starts_sequential idleState [((0 : ℚ), (1 : ℚ)), (1/2, 2)]
    (by norm_num)

/-! ## Theorems: TranscriptAssembler (C6) -/

theorem foldl_applyFragment (frags : List (Source × String))
    (s : ControllerState) :
    (frags.foldl applyFragment s).inputAcc = s.inputAcc ++ userText frags ∧
    (frags.foldl applyFragment s).outputAcc = s.outputAcc ++ modelText frags ∧
    (frags.foldl applyFragment s).transcript = s.transcript := by
  induction frags generalizing s with
  | nil => simp [userText, modelText]
  | cons f rest ih =>
      obtain ⟨src, t⟩ := f
      cases src with
      | user =>
          have h := ih { s with inputAcc := s.inputAcc ++ t }
          refine ⟨?_, ?_, ?_⟩ <;>
            simp [applyFragment, userText, modelText, h.1, h.2.1, h.2.2,
              String.append_assoc]
      | model =>
          have h := ih { s with outputAcc := s.outputAcc ++ t }
          refine ⟨?_, ?_, ?_⟩ <;>
            simp [applyFragment, userText, modelText, h.1, h.2.1, h.2.2,
              String.append_assoc]

/-- Claim C6: for accumulators built from any sequence of fragment
events, a turn-complete event trims both accumulators, appends one
`TranscriptionEntry` per non-empty trimmed accumulator in the fixed
order user before model, then clears both accumulators; if both trimmed
accumulators are empty nothing is appended; in particular user fragments
"He","llo" and model fragment "Hi" followed by turn-complete append
exactly `[{user,"Hello"}, {model,"Hi"}]`. -/
theorem turn_complete_entries (frags : List (Source × String))
    (s : ControllerState) :
    (frags.foldl applyFragment s).inputAcc = s.inputAcc ++ userText frags ∧
    (frags.foldl applyFragment s).outputAcc = s.outputAcc ++ modelText frags ∧
    (onTurnComplete (frags.foldl applyFragment s)).transcript =
      s.transcript
        ++ (if jsTrim (s.inputAcc ++ userText frags) ≠ "" then
              [⟨.user, jsTrim (s.inputAcc ++ userText frags)⟩] else [])
        ++ (if jsTrim (s.outputAcc ++ modelText frags) ≠ "" then
              [⟨.model, jsTrim (s.outputAcc ++ modelText frags)⟩] else []) ∧
    (onTurnComplete (frags.foldl applyFragment s)).inputAcc = "" ∧
    (onTurnComplete (frags.foldl applyFragment s)).outputAcc = "" ∧
    (onTurnComplete ([(Source.user, "He"), (Source.user, "llo"),
        (Source.model, "Hi")].foldl applyFragment idleState)).transcript =
      [⟨.user, "Hello"⟩, ⟨.model, "Hi"⟩] := by
  have h := foldl_applyFragment frags s
  refine ⟨h.1, h.2.1, ?_, rfl, rfl, by decide⟩
  simp [onTurnComplete, h.1, h.2.1, h.2.2]

/-! ## Theorems: outbound PCM16 conversion (C3) -/

theorem toInt16_eq_self (n : ℤ) (h1 : -32768 ≤ n) (h2 : n < 32768) :
    toInt16 n = n := by
  unfold toInt16
  split <;> omega

theorem ratTrunc_bounds (x : ℚ) (h1 : -1 ≤ x) (h2 : x < 1) :
    -32768 ≤ ratTrunc (x * 32768) ∧ ratTrunc (x * 32768) < 32768 := by
  unfold ratTrunc
  split
  case isTrue h =>
    constructor
    · have : (0 : ℤ) ≤ ⌊x * 32768⌋ := Int.floor_nonneg.2 h
      omega
    · exact Int.floor_lt.2 (by push_cast; nlinarith)
  case isFalse h =>
    push_neg at h
    constructor
    · have hx : ((-32768 : ℤ) : ℚ) ≤ x * 32768 := by push_cast; nlinarith
      calc (-32768 : ℤ) = ⌈((-32768 : ℤ) : ℚ)⌉ := (Int.ceil_intCast _).symm
        _ ≤ ⌈x * 32768⌉ := Int.ceil_le_ceil hx
    · have hc : ⌈x * 32768⌉ ≤ 0 := by
        calc ⌈x * 32768⌉ ≤ ⌈(0 : ℚ)⌉ := Int.ceil_le_ceil (le_of_lt h)
          _ = 0 := Int.ceil_zero
      omega

/-- Claim C3 counterexample: the sample `1.0` — in the claimed input
range — is encoded by the source as `-32768` (the multiplication by
32768 wraps through `ToInt16`), while the claimed clamped asymmetric
encoding would produce `32767`. -/
theorem pcm_encode_counterexample :
    encodeSample 1 = -32768 ∧ specEncodeSample 1 = 32767 ∧
    encodeSample 1 ≠ specEncodeSample 1 := by
  refine ⟨?_, ?_, ?_⟩ <;>
    norm_num [encodeSample, specEncodeSample, ratTrunc, toInt16]

/-- Claim C3 (amended): each captured sample is multiplied by 32768
regardless of sign — no clamping, no asymmetric 32767 factor — and
truncated to a signed 16-bit integer modulo 2^16; samples in `[-1, 1)`
are encoded without wrapping as `trunc(x * 32768)` and land in
`[-32768, 32767]`, while out-of-range samples (including exactly `1`)
wrap rather than saturate. -/
theorem pcm_encode_no_clamp (x : ℚ) (h1 : -1 ≤ x) (h2 : x < 1) :
    encodeSample x = ratTrunc (x * 32768) ∧
    -32768 ≤ encodeSample x ∧ encodeSample x ≤ 32767 := by
  obtain ⟨hl, hu⟩ := ratTrunc_bounds x h1 h2
  have he : encodeSample x = ratTrunc (x * 32768) := by
    unfold encodeSample
    exact toInt16_eq_self _ hl hu
  refine ⟨he, ?_, ?_⟩ <;> rw [he] <;> omega

/-- Witness for C3 (amended) at the in-range sample `1/2`. -/
theorem pcm_encode_no_clamp_witness :
    encodeSample (1/2) = ratTrunc ((1/2 : ℚ) * 32768) ∧
    -32768 ≤ encodeSample (1/2) ∧ encodeSample (1/2) ≤ 32767 :=
  pcm_encode_no_clamp (1/2) (by norm_num) (by norm_num)

/-! ## Teardown infrastructure lemmas -/

theorem stopTracks_noFaults (l : List Nat) :
    stopTracks noFaults l = (l.map Action.stopTrack, true) := by
  induction l with
  | nil => rfl
  | cons i rest ih => simp [stopTracks, noFaults, ih]

theorem stopSources_noFaults (l : List Nat) :
    stopSources noFaults l = (l.map Action.stopSource, true) := by
  induction l with
  | nil => rfl
  | cons i rest ih => simp [stopSources, noFaults, ih]

/-- Full characterization of a fault-free teardown run: the refs are
cleared, the contexts end `'closed'`, the source set empties, the cursor
resets, the active flag drops, and the trace lists every external call
in source order. -/
theorem stopTeardown_noFaults (s : ControllerState) :
    stopTeardown noFaults s =
      ⟨{ s with
          session := false
          scriptProcessor := false
          mediaStream := none
          inputCtx := s.inputCtx.map fun _ => CtxState.closed
          outputCtx := s.outputCtx.map fun _ => CtxState.closed
          audioSources := []
          nextStartTime := 0
          isSessionActive := false },
        (if s.session then [Action.closeSession] else [])
        ++ (if s.scriptProcessor then [Action.disconnectProcessor] else [])
        ++ (match s.mediaStream with
            | some n => (List.range n).map Action.stopTrack
            | none => [])
        ++ (if s.inputCtx = some CtxState.running then [Action.closeInputCtx] else [])
        ++ (if s.outputCtx = some CtxState.running then [Action.closeOutputCtx] else [])
        ++ s.audioSources.map Action.stopSource,
        true⟩ := by
  obtain ⟨ses, sp, ms, ic, oc, srcs, nst, act, tr, em, ia, oa⟩ := s
  cases ses <;> cases sp <;> rcases ms with _ | n <;>
    rcases ic with _ | (_ | _) <;> rcases oc with _ | (_ | _) <;>
    simp [stopTeardown, seqRun, blkSession, blkProcessor, blkStream,
      blkInputCtx, blkOutputCtx, blkSources, blkFinal,
      stopTracks_noFaults, stopSources_noFaults, noFaults]

theorem seqRun_frame (r : RunResult) (f : ControllerState → RunResult)
    (s : ControllerState)
    (hr : r.state.transcript = s.transcript ∧ r.state.errorMsg = s.errorMsg ∧
      r.state.inputAcc = s.inputAcc ∧ r.state.outputAcc = s.outputAcc)
    (hf : ∀ u : ControllerState,
      (f u).state.transcript = u.transcript ∧ (f u).state.errorMsg = u.errorMsg ∧
      (f u).state.inputAcc = u.inputAcc ∧ (f u).state.outputAcc = u.outputAcc) :
    (seqRun r f).state.transcript = s.transcript ∧
    (seqRun r f).state.errorMsg = s.errorMsg ∧
    (seqRun r f).state.inputAcc = s.inputAcc ∧
    (seqRun r f).state.outputAcc = s.outputAcc := by
  unfold seqRun
  split
  · have h2 := hf r.state
    exact ⟨h2.1.trans hr.1, h2.2.1.trans hr.2.1,
      h2.2.2.1.trans hr.2.2.1, h2.2.2.2.trans hr.2.2.2⟩
  · exact hr

theorem blkSession_frame (faults : Action → Bool) (s : ControllerState) :
    (blkSession faults s).state.transcript = s.transcript ∧
    (blkSession faults s).state.errorMsg = s.errorMsg ∧
    (blkSession faults s).state.inputAcc = s.inputAcc ∧
    (blkSession faults s).state.outputAcc = s.outputAcc := by
  unfold blkSession
  split
  case isTrue => split <;> simp
  case isFalse => simp

theorem blkProcessor_frame (faults : Action → Bool) (s : ControllerState) :
    (blkProcessor faults s).state.transcript = s.transcript ∧
    (blkProcessor faults s).state.errorMsg = s.errorMsg ∧
    (blkProcessor faults s).state.inputAcc = s.inputAcc ∧
    (blkProcessor faults s).state.outputAcc = s.outputAcc := by
  unfold blkProcessor
  split
  case isTrue => split <;> simp
  case isFalse => simp

theorem blkStream_frame (faults : Action → Bool) (s : ControllerState) :
    (blkStream faults s).state.transcript = s.transcript ∧
    (blkStream faults s).state.errorMsg = s.errorMsg ∧
    (blkStream faults s).state.inputAcc = s.inputAcc ∧
    (blkStream faults s).state.outputAcc = s.outputAcc := by
  unfold blkStream
  rcases s.mediaStream with _ | n
  · simp
  · simp only []
    split <;> simp

theorem blkInputCtx_frame (faults : Action → Bool) (s : ControllerState) :
    (blkInputCtx faults s).state.transcript = s.transcript ∧
    (blkInputCtx faults s).state.errorMsg = s.errorMsg ∧
    (blkInputCtx faults s).state.inputAcc = s.inputAcc ∧
    (blkInputCtx faults s).state.outputAcc = s.outputAcc := by
  unfold blkInputCtx
  rcases s.inputCtx with _ | (_ | _)
  · simp
  · simp only []
    split <;> simp
  · simp

theorem blkOutputCtx_frame (faults : Action → Bool) (s : ControllerState) :
    (blkOutputCtx faults s).state.transcript = s.transcript ∧
    (blkOutputCtx faults s).state.errorMsg = s.errorMsg ∧
    (blkOutputCtx faults s).state.inputAcc = s.inputAcc ∧
    (blkOutputCtx faults s).state.outputAcc = s.outputAcc := by
  unfold blkOutputCtx
  rcases s.outputCtx with _ | (_ | _)
  · simp
  · simp only []
    split <;> simp
  · simp

theorem blkSources_frame (faults : Action → Bool) (s : ControllerState) :
    (blkSources faults s).state.transcript = s.transcript ∧
    (blkSources faults s).state.errorMsg = s.errorMsg ∧
    (blkSources faults s).state.inputAcc = s.inputAcc ∧
    (blkSources faults s).state.outputAcc = s.outputAcc := by
  unfold blkSources
  simp only []
  split <;> simp

theorem blkFinal_frame (s : ControllerState) :
    (blkFinal s).state.transcript = s.transcript ∧
    (blkFinal s).state.errorMsg = s.errorMsg ∧
    (blkFinal s).state.inputAcc = s.inputAcc ∧
    (blkFinal s).state.outputAcc = s.outputAcc := by
  simp [blkFinal]

/-- Teardown — under any fault oracle, so also when it aborts early —
never touches the transcript, the error text, or the transcription
accumulators. -/
theorem stopTeardown_frame (faults : Action → Bool) (s : ControllerState) :
    (stopTeardown faults s).state.transcript = s.transcript ∧
    (stopTeardown faults s).state.errorMsg = s.errorMsg ∧
    (stopTeardown faults s).state.inputAcc = s.inputAcc ∧
    (stopTeardown faults s).state.outputAcc = s.outputAcc := by
  unfold stopTeardown
  refine seqRun_frame _ _ _ ?_ blkFinal_frame
  refine seqRun_frame _ _ _ ?_ (blkSources_frame faults)
  refine seqRun_frame _ _ _ ?_ (blkOutputCtx_frame faults)
  refine seqRun_frame _ _ _ ?_ (blkInputCtx_frame faults)
  refine seqRun_frame _ _ _ ?_ (blkStream_frame faults)
  refine seqRun_frame _ _ _ ?_ (blkProcessor_frame faults)
  exact blkSession_frame faults s

theorem seqRun_trace_all (P : Action → Prop) (r : RunResult)
    (f : ControllerState → RunResult)
    (hr : ∀ a ∈ r.trace, P a) (hf : ∀ u, ∀ a ∈ (f u).trace, P a) :
    ∀ a ∈ (seqRun r f).trace, P a := by
  unfold seqRun
  split
  · intro a ha
    rcases List.mem_append.1 ha with h | h
    · exact hr a h
    · exact hf r.state a h
  · exact hr

theorem stopTracks_trace_all (faults : Action → Bool) (l : List Nat) :
    ∀ a ∈ (stopTracks faults l).1, ∃ i, a = Action.stopTrack i := by
  induction l with
  | nil => simp [stopTracks]
  | cons i rest ih =>
      unfold stopTracks
      split
      · simp
      · simp only []
        intro a ha
        rcases List.mem_cons.1 ha with h | h
        · exact ⟨i, h⟩
        · exact ih a h

theorem stopSources_trace_all (faults : Action → Bool) (l : List Nat) :
    ∀ a ∈ (stopSources faults l).1, ∃ i, a = Action.stopSource i := by
  induction l with
  | nil => simp [stopSources]
  | cons i rest ih =>
      unfold stopSources
      split
      · simp
      · simp only []
        intro a ha
        rcases List.mem_cons.1 ha with h | h
        · exact ⟨i, h⟩
        · exact ih a h

/-- No teardown step ever performs the history hand-off. -/
theorem stopTeardown_no_save (faults : Action → Bool) (s : ControllerState) :
    ∀ a ∈ (stopTeardown faults s).trace, a.isSave = false := by
  unfold stopTeardown
  refine seqRun_trace_all _ _ _ ?_ (fun u => by simp [blkFinal])
  refine seqRun_trace_all _ _ _ ?_ (fun u => ?_)
  case refine_2 =>
    unfold blkSources
    simp only []
    split <;>
      · intro a ha
        obtain ⟨i, rfl⟩ := stopSources_trace_all faults u.audioSources a ha
        rfl
  refine seqRun_trace_all _ _ _ ?_ (fun u => ?_)
  case refine_2 =>
    unfold blkOutputCtx
    rcases u.outputCtx with _ | (_ | _)
    · simp
    · simp only []
      split <;> simp [Action.isSave]
    · simp
  refine seqRun_trace_all _ _ _ ?_ (fun u => ?_)
  case refine_2 =>
    unfold blkInputCtx
    rcases u.inputCtx with _ | (_ | _)
    · simp
    · simp only []
      split <;> simp [Action.isSave]
    · simp
  refine seqRun_trace_all _ _ _ ?_ (fun u => ?_)
  case refine_2 =>
    unfold blkStream
    rcases u.mediaStream with _ | n
    · simp
    · simp only []
      split <;>
        · intro a ha
          obtain ⟨i, rfl⟩ := stopTracks_trace_all faults (List.range n) a ha
          rfl
  refine seqRun_trace_all _ _ _ ?_ (fun u => ?_)
  case refine_2 =>
    unfold blkProcessor
    split
    · split <;> simp [Action.isSave]
    · simp
  · unfold blkSession
    split
    · split <;> simp [Action.isSave]
    · simp

theorem stopTeardown_filter_save (faults : Action → Bool) (s : ControllerState) :
    (stopTeardown faults s).trace.filter (fun a => a.isSave) = [] := by
  rw [List.filter_eq_nil_iff]
  intro a ha
  simp [stopTeardown_no_save faults s a ha]

/-- A second fault-free teardown run from the state a first one produced
changes nothing. -/
theorem stopTeardown_idem_state (s : ControllerState) :
    (stopTeardown noFaults ((stopTeardown noFaults s).state)).state =
      (stopTeardown noFaults s).state := by
  rw [stopTeardown_noFaults, stopTeardown_noFaults]
  dsimp
  cases s.inputCtx <;> cases s.outputCtx <;> rfl

/-- A second fault-free teardown run from the state a first one produced
makes no external call at all. -/
theorem stopTeardown_idem_trace (s : ControllerState) :
    (stopTeardown noFaults ((stopTeardown noFaults s).state)).trace = [] := by
  rw [stopTeardown_noFaults, stopTeardown_noFaults]
  dsimp
  cases s.inputCtx <;> cases s.outputCtx <;> rfl

/-! ## Theorems: transcript hand-off on session end (C2) -/

/-- Claim C2 counterexample: a session that ends through the transport
error path with a non-empty transcript hands nothing to the history
collaborator — the `onerror` callback calls `stopSession(false)` — while
the claim requires exactly one hand-off for every ending session with a
non-empty transcript. -/
theorem transcript_handoff_error_cex :
    fullState.transcript = [⟨Source.user, "hi"⟩] ∧
    (endSession noFaults (EndReason.transportError "connection reset")
        fullState).trace.filter (fun a => a.isSave) = [] := by
  constructor
  · rfl
  · decide

/-- Claim C2 (amended): a session ending by user stop or remote close
with a non-empty transcript hands exactly that transcript to the history
collaborator exactly once per `stopSession(true)` invocation, and hands
off nothing when the transcript is empty; a session ending by a
transport error hands off nothing, whatever the transcript. -/
theorem transcript_handoff (faults : Action → Bool) (r : EndReason)
    (s : ControllerState) :
    (endSession faults r s).trace.filter (fun a => a.isSave) =
      (match r with
       | .userStop => if s.transcript.length = 0 then []
                      else [Action.saveTranscript s.transcript]
       | .remoteClose => if s.transcript.length = 0 then []
                         else [Action.saveTranscript s.transcript]
       | .transportError _ => []) := by
  cases r with
  | transportError msg =>
      simp only [endSession, stopSession, List.filter_append,
        stopTeardown_filter_save, false_and, if_false, List.append_nil]
      rfl
  | userStop =>
      simp only [endSession, stopSession, List.filter_append,
        stopTeardown_filter_save, true_and, List.append_nil]
      by_cases h : 0 < s.transcript.length
      · rw [if_pos h, if_neg (by omega)]
        simp [Action.isSave]
      · rw [if_neg h, if_pos (by omega)]
        rfl
  | remoteClose =>
      simp only [endSession, stopSession, List.filter_append,
        stopTeardown_filter_save, true_and, List.append_nil]
      by_cases h : 0 < s.transcript.length
      · rw [if_pos h, if_neg (by omega)]
        simp [Action.isSave]
      · rw [if_neg h, if_pos (by omega)]
        rfl

/-! ## Theorems: teardown order and exception propagation (C4) -/

/-- Claim C4 counterexample: from the fully populated state, the
fault-free teardown closes both audio contexts *before* stopping the
scheduled playback sources, contradicting the claimed order
(stopAll before device release); and when the very first step — closing
the transport — throws, no later step runs at all, contradicting the
claimed exception tolerance. -/
theorem stop_teardown_order_cex :
    (stopTeardown noFaults fullState).trace =
      [Action.closeSession, Action.disconnectProcessor, Action.stopTrack 0,
       Action.closeInputCtx, Action.closeOutputCtx, Action.stopSource 5] ∧
    (stopTeardown noFaults fullState).trace.indexOf Action.closeOutputCtx <
      (stopTeardown noFaults fullState).trace.indexOf (Action.stopSource 5) ∧
    (stopTeardown faultClose fullState).trace = [Action.closeSession] ∧
    Action.disconnectProcessor ∉ (stopTeardown faultClose fullState).trace := by
  decide

/-- Claim C4 (amended): from every entry state, fault-free teardown
performs its external calls in the source's fixed order — close
transport, disconnect the capture node, stop the device tracks, close
the capture and output audio contexts, and only then stop the scheduled
playback sources — and the steps are not exception-guarded: when the
transport close throws, the run aborts and no subsequent step is
performed. -/
theorem stop_teardown_order (s : ControllerState) :
    (stopTeardown noFaults s).trace =
      (if s.session then [Action.closeSession] else [])
      ++ (if s.scriptProcessor then [Action.disconnectProcessor] else [])
      ++ (match s.mediaStream with
          | some n => (List.range n).map Action.stopTrack
          | none => [])
      ++ (if s.inputCtx = some CtxState.running then [Action.closeInputCtx] else [])
      ++ (if s.outputCtx = some CtxState.running then [Action.closeOutputCtx] else [])
      ++ s.audioSources.map Action.stopSource ∧
    (s.session = true →
      (stopTeardown faultClose s).trace = [Action.closeSession] ∧
      (stopTeardown faultClose s).ok = false) := by
  constructor
  · rw [stopTeardown_noFaults]
  · intro h
    have hb : blkSession faultClose s = ⟨s, [Action.closeSession], false⟩ := by
      simp [blkSession, faultClose, h]
    constructor <;>
      simp [stopTeardown, seqRun, hb]

/-- Witness for C4 (amended) at the fully populated state, where the
transport is open so the faulting-close hypothesis holds. -/
theorem stop_teardown_order_witness :
    (stopTeardown noFaults fullState).trace =
      (if fullState.session then [Action.closeSession] else [])
      ++ (if fullState.scriptProcessor then [Action.disconnectProcessor] else [])
      ++ (match fullState.mediaStream with
          | some n => (List.range n).map Action.stopTrack
          | none => [])
      ++ (if fullState.inputCtx = some CtxState.running then [Action.closeInputCtx] else [])
      ++ (if fullState.outputCtx = some CtxState.running then [Action.closeOutputCtx] else [])
      ++ fullState.audioSources.map Action.stopSource ∧
    (stopTeardown faultClose fullState).trace = [Action.closeSession] ∧
    (stopTeardown faultClose fullState).ok = false :=
  ⟨(stop_teardown_order fullState).1,
   ((stop_teardown_order fullState).2 rfl).1,
   ((stop_teardown_order fullState).2 rfl).2⟩

/-! ## Theorems: repeated and premature stop (C5) -/

/-- Claim C5: calling `stopSession` twice in a row — with either value
of `saveHistory` — completes without an exception, performs no release
call (close / disconnect / track-stop / source-stop) in the second run,
leaves the state exactly where the first stop left it, with the session
inactive; and `stopSession` on the never-started idle state performs no
external call at all and leaves the session inactive. -/
theorem stop_twice_safe (b1 b2 : Bool) (s : ControllerState) :
    (stopSession noFaults b1 s).ok = true ∧
    (stopSession noFaults b2 (stopSession noFaults b1 s).state).ok = true ∧
    (stopSession noFaults b2 (stopSession noFaults b1 s).state).trace.filter
      (fun a => !a.isSave) = [] ∧
    (stopSession noFaults b2 (stopSession noFaults b1 s).state).state =
      (stopSession noFaults b1 s).state ∧
    (stopSession noFaults b1 s).state.isSessionActive = false ∧
    (stopSession noFaults b1 idleState).trace = [] ∧
    (stopSession noFaults b1 idleState).state.isSessionActive = false := by
  refine ⟨?_, ?_, ?_, ?_, ?_, ?_, ?_⟩
  · simp [stopSession, stopTeardown_noFaults]
  · simp [stopSession, stopTeardown_noFaults]
  · show ((if _ then _ else _) ++ (stopTeardown noFaults _).trace).filter _ = _
    rw [show (stopSession noFaults b1 s).state = (stopTeardown noFaults s).state
        from rfl,
      stopTeardown_idem_trace, List.append_nil]
    split
    · simp [Action.isSave]
    · rfl
  · show (stopTeardown noFaults _).state = _
    exact stopTeardown_idem_state s
  · rw [show (stopSession noFaults b1 s).state = (stopTeardown noFaults s).state
        from rfl,
      stopTeardown_noFaults]
  · cases b1 <;> decide
  · cases b1 <;> decide

/-! ## Theorems: teardown leaves the transcript unchanged (C10) -/

/-- Claim C10: teardown — whether invoked by the user's stop, the error
path, or remote close, and under any fault oracle — leaves the assembled
transcript unchanged; `stopSession` itself also leaves the transcription
accumulators and the error text unchanged, mutating only the session
handle, capture path, media tracks, audio contexts, playback-source set,
cursor and active flag. -/
theorem stop_preserves_transcript (faults : Action → Bool) (b : Bool)
    (r : EndReason) (s : ControllerState) :
    (stopSession faults b s).state.transcript = s.transcript ∧
    (stopSession faults b s).state.inputAcc = s.inputAcc ∧
    (stopSession faults b s).state.outputAcc = s.outputAcc ∧
    (stopSession faults b s).state.errorMsg = s.errorMsg ∧
    (endSession faults r s).state.transcript = s.transcript := by
  have h := stopTeardown_frame faults s
  refine ⟨h.1, h.2.2.1, h.2.2.2, h.2.1, ?_⟩
  cases r with
  | userStop => exact h.1
  | remoteClose => exact h.1
  | transportError msg => exact (stopTeardown_frame faults _).1

/-! ## Theorems: start guard (C7) and start reset (C9) -/

/-- Claim C7 counterexample: in the Starting phase — a previous
`start()` has acquired the microphone (`mediaStreamRef` set) but the
transport has not yet reported open, so `isSessionActive` is still
false — a second `start()` is not a no-op: it runs its whole body and
acquires the microphone again, so two capture pipelines exist. -/
theorem start_not_guarded_while_starting :
    startingState.isSessionActive = false ∧
    startingState.mediaStream = some 1 ∧
    handleStartTrace startingState ≠ [] ∧
    StartAction.acquireMic ∈ handleStartTrace startingState := by
  decide

/-- Claim C7 (amended): `start()` is a no-op exactly when the session is
already Active (`isSessionActive` true); the guard does not cover the
Starting phase. -/
theorem start_noop_when_active (s : ControllerState)
    (h : s.isSessionActive = true) :
    handleStartTrace s = [] ∧ handleStartReset s = s := by
  simp [handleStartTrace, handleStartReset, h]

/-- Witness for C7 (amended) at an active state. -/
theorem start_noop_when_active_witness :
    handleStartTrace { idleState with isSessionActive := true } = [] ∧
    handleStartReset { idleState with isSessionActive := true } =
      { idleState with isSessionActive := true } :=
  start_noop_when_active { idleState with isSessionActive := true } rfl

/-- Claim C9: every `start()` that is not a no-op clears the error and
resets the transcript to the empty sequence before acquiring the
microphone or connecting the transport. -/
theorem start_resets_before_acquire (s : ControllerState)
    (h : s.isSessionActive = false) :
    handleStartTrace s =
      [StartAction.clearError, StartAction.clearTranscript,
       StartAction.acquireMic, StartAction.createInputCtx,
       StartAction.createOutputCtx, StartAction.connectTransport] ∧
    (handleStartReset s).transcript = [] ∧
    (handleStartReset s).errorMsg = none ∧
    (handleStartTrace s).indexOf StartAction.clearError <
      (handleStartTrace s).indexOf StartAction.acquireMic ∧
    (handleStartTrace s).indexOf StartAction.clearTranscript <
      (handleStartTrace s).indexOf StartAction.acquireMic ∧
    (handleStartTrace s).indexOf StartAction.acquireMic <
      (handleStartTrace s).indexOf StartAction.connectTransport := by
  have ht : handleStartTrace s =
      [StartAction.clearError, StartAction.clearTranscript,
       StartAction.acquireMic, StartAction.createInputCtx,
       StartAction.createOutputCtx, StartAction.connectTransport] := by
    simp [handleStartTrace, h]
  refine ⟨ht, ?_, ?_, ?_, ?_, ?_⟩
  · simp [handleStartReset, h]
  · simp [handleStartReset, h]
  · rw [ht]; decide
  · rw [ht]; decide
  · rw [ht]; decide

/-- Witness for C9 at the idle state. -/
theorem start_resets_before_acquire_witness :
    handleStartTrace idleState =
      [StartAction.clearError, StartAction.clearTranscript,
       StartAction.acquireMic, StartAction.createInputCtx,
       StartAction.createOutputCtx, StartAction.connectTransport] ∧
    (handleStartReset idleState).transcript = [] ∧
    (handleStartReset idleState).errorMsg = none ∧
    (handleStartTrace idleState).indexOf StartAction.clearError <
      (handleStartTrace idleState).indexOf StartAction.acquireMic ∧
    (handleStartTrace idleState).indexOf StartAction.clearTranscript <
      (handleStartTrace idleState).indexOf StartAction.acquireMic ∧
    (handleStartTrace idleState).indexOf StartAction.acquireMic <
      (handleStartTrace idleState).indexOf StartAction.connectTransport :=
  start_resets_before_acquire idleState rfl

/-! ## Theorems: stale-credential error surfacing (C8) -/

/-- Claim C8 counterexample: the transport message that matches the
repo's own stale-credential pattern ("Requested entity was not found",
the pattern `handleApiError` in `errorHandler.ts` checks) is surfaced by
the live-conversation controller as the same generic `errorText` state
as any other connection error — not as a distinct must-reselect state —
while the separate `useVeoApiKey` hook would have detected it. -/
theorem stale_key_not_distinct :
    charsContain staleKeyMessage.toList staleKeyMessage.toList = true ∧
    liveErrorSurface staleKeyMessage =
      UiSurface.errorText ("Session error: Requested entity was not found") ∧
    (liveErrorSurface staleKeyMessage).isReselect = false ∧
    (liveErrorSurface staleKeyMessage).isReselect =
      (liveErrorSurface "network unreachable").isReselect ∧
    (endSession noFaults (EndReason.transportError staleKeyMessage)
        fullState).state.errorMsg =
      some ("Session error: Requested entity was not found") ∧
    handleApiErrorKey (some staleKeyMessage) true = false := by
  refine ⟨by decide, rfl, rfl, rfl, ?_, by decide⟩
  simp only [endSession, stopSession]
  rw [(stopTeardown_frame noFaults
    { fullState with
        errorMsg := some ("Session error: " ++ staleKeyMessage) }).2.1]
  decide

/-- Claim C8 (amended): the live-conversation controller surfaces every
transport error, the stale-credential message included, as the one
generic error-text state `Session error: <message>`; the distinct
must-reselect-credential handling (dropping `isKeySelected` on the
"Requested entity was not found" pattern) exists only in the separate
`useVeoApiKey` hook, which the live session's `onerror` never invokes. -/
theorem live_error_surface_generic (msg : String) (faults : Action → Bool)
    (s : ControllerState) :
    liveErrorSurface msg = UiSurface.errorText ("Session error: " ++ msg) ∧
    (liveErrorSurface msg).isReselect = false ∧
    (endSession faults (EndReason.transportError msg) s).state.errorMsg =
      some ("Session error: " ++ msg) ∧
    handleApiErrorKey (some staleKeyMessage) true = false := by
  refine ⟨rfl, rfl, ?_, by decide⟩
  simp only [endSession, stopSession]
  exact (stopTeardown_frame faults
    { s with errorMsg := some ("Session error: " ++ msg) }).2.1

end LiveConversation
